import Mathlib

/-!
Verification of the people CRUD pipeline of the mono-repo starter.

The development shallowly embeds the parts of the repository the claims
touch:

* `packages/database/src/schema/people.ts` — the `people` table: uuid
  primary key (store-generated), six required scalar fields, a unique
  `email` column, `created_at` / `updated_at` timestamps defaulting to the
  insertion time.
* `packages/database/src/repositories/people.dao.ts` — `PeopleDAO` with
  `findAll`, `findById`, `findByEmail`, `create`, `update`, `delete`,
  `exists`, `count`.  The table contents are modelled as the list of rows
  in the store's physical order; each method is the pure function the SQL
  it issues denotes on that list.  Store-side effects the SQL relies on
  (uuid generation, `now()`) are passed in as explicit arguments; the
  UNIQUE / PRIMARY KEY constraints of the table become the explicit
  conflict checks of `create` and `update`, surfaced as `DbError` values
  (the raised failure of the real store).
* `apps/backend-api/src/routes/people/index.ts` — the five route
  handlers, as pure mappings from the data-access outcome to a status
  code and body.
* `apps/backend-api/src/routes/index.ts` and the OpenAPI generation
  script — route registration and the (path, verb) keys of the published
  document.
* `packages/database/src/schemas/people.schema.ts` — the TypeBox
  `ListPeopleQuerySchema`, as a validity predicate.  `limit` and `offset`
  are JSON integers validated to be nonnegative, so they are modelled as
  `Nat`; the schema's `minimum: 0` keyword on `offset` is thereby
  structural.
-/

/-- A row of the `people` table (`schema/people.ts`): uuid id, six
required scalars, unique email, and the two timestamps. Timestamps are
logical times (`Nat`). -/
structure Person where
  id : String
  firstName : String
  lastName : String
  email : String
  age : Nat
  city : String
  country : String
  createdAt : Nat
  updatedAt : Nat
deriving Repr, DecidableEq

/-- `NewPerson` (`$inferInsert` restricted to the caller-supplied fields):
what `CreatePersonDTO` carries — no id, no timestamps. -/
structure NewPerson where
  firstName : String
  lastName : String
  email : String
  age : Nat
  city : String
  country : String
deriving Repr, DecidableEq

/-- `Partial<NewPerson>`: the update input, every field optional. -/
structure UpdatePerson where
  firstName : Option String := none
  lastName : Option String := none
  email : Option String := none
  age : Option Nat := none
  city : Option String := none
  country : Option String := none
deriving Repr, DecidableEq

/-- The typed failures the store raises through the DAO: unique-constraint
violation, malformed input, store unreachable.  Each carries the message
of the thrown error. -/
inductive DbError where
  | conflict (message : String)
  | invalidArgument (message : String)
  | unavailable (message : String)
deriving Repr, DecidableEq

/-- `error.message` of the thrown failure. -/
def DbError.message : DbError → String
  | .conflict m => m
  | .invalidArgument m => m
  | .unavailable m => m

/-- The options object of `PeopleDAO.findAll`: `{ limit?, offset? }`.
Note it has no `search` member. -/
structure FindAllOptions where
  limit : Option Nat := none
  offset : Option Nat := none
deriving Repr, DecidableEq

/-- The `{ data, total }` result of `PeopleDAO.findAll`. -/
structure ListResult where
  data : List Person
  total : Nat
deriving Repr, DecidableEq

namespace PeopleDAO

/-- `findAll` (people.dao.ts lines 9-25): `limit = options?.limit ?? 10`,
`offset = options?.offset ?? 0`; the page is
`select ... limit limit offset offset` over the table rows, and `total`
is `count(*)` over the whole table — no predicate of any kind is applied
to either query. -/
def findAll (rows : List Person) (options : Option FindAllOptions) : ListResult :=
  let limit := (options.bind (·.limit)).getD 10
  let offset := (options.bind (·.offset)).getD 0
  { data := (rows.drop offset).take limit
    total := rows.length }

/-- `findById` (lines 30-33): `select ... where id = id limit 1`, then
`result[0] ?? null`. -/
def findById (rows : List Person) (id : String) : Option Person :=
  ((rows.filter (fun p => p.id == id)).take 1).head?

/-- `findByEmail` (lines 38-41): same shape keyed on the unique email. -/
def findByEmail (rows : List Person) (email : String) : Option Person :=
  ((rows.filter (fun p => p.email == email)).take 1).head?

/-- `create` (lines 46-49): a bare `insert ... returning`.  The store
generates the id (`gen_random_uuid()`, here the `newId` argument) and
both timestamps (`defaultNow()`, here `now`); it raises a
unique-violation error when the row collides with the `email` UNIQUE
constraint or the `id` PRIMARY KEY. On success the new row is appended
and returned. -/
def create (rows : List Person) (data : NewPerson) (newId : String) (now : Nat) :
    Except DbError (Person × List Person) :=
  if rows.any (fun p => p.email == data.email || p.id == newId) then
    .error (.conflict "duplicate key value violates unique constraint")
  else
    let p : Person :=
      { id := newId
        firstName := data.firstName
        lastName := data.lastName
        email := data.email
        age := data.age
        city := data.city
        country := data.country
        createdAt := now
        updatedAt := now }
    .ok (p, rows ++ [p])

/-- The row a matching `update ... set { ...data, updatedAt: new Date() }`
leaves behind: present fields overwrite, absent fields persist, and the
update timestamp is set to the operation's time unconditionally. -/
def applySet (p : Person) (data : UpdatePerson) (now : Nat) : Person :=
  { id := p.id
    firstName := data.firstName.getD p.firstName
    lastName := data.lastName.getD p.lastName
    email := data.email.getD p.email
    age := data.age.getD p.age
    city := data.city.getD p.city
    country := data.country.getD p.country
    createdAt := p.createdAt
    updatedAt := now }

/-- When an `update` that sets `email` hits the table's UNIQUE constraint:
some row matches the id (so a row is rewritten) while a different row
already holds the target email. -/
def updateConflicts (rows : List Person) (id : String) (data : UpdatePerson) : Bool :=
  match data.email with
  | none => false
  | some e =>
      rows.any (fun q => q.id == id) && rows.any (fun q => !(q.id == id) && q.email == e)

/-- `update` (lines 54-62): `update ... set {...data, updatedAt: new Date()}
where id = id returning`, then `updatedPerson ?? null`.  Every row whose
id matches is rewritten by `applySet`; the returned value is the first
such row's new state, `none` when no row matches.  The store raises the
unique-violation error when the rewrite collides on `email`. -/
def update (rows : List Person) (id : String) (data : UpdatePerson) (now : Nat) :
    Except DbError (Option Person × List Person) :=
  if updateConflicts rows id data then
    .error (.conflict "duplicate key value violates unique constraint")
  else
    .ok ((rows.find? (fun q => q.id == id)).map (fun q => applySet q data now),
         rows.map (fun q => if q.id == id then applySet q data now else q))

/-- `delete` (lines 67-70): `delete ... where id = id returning`, result
is the remaining table and `returning.length > 0`. -/
def delete (rows : List Person) (id : String) : List Person × Bool :=
  (rows.filter (fun p => !(p.id == id)), rows.any (fun p => p.id == id))

/-- `exists` (lines 75-83; `exists` is a reserved word here):
`select { id } ... where id = id limit 1`, then `result.length > 0`. -/
def existsById (rows : List Person) (id : String) : Bool :=
  !((rows.filter (fun p => p.id == id)).take 1).isEmpty

/-- `count` (lines 88-91): `count(*)` over the table. -/
def count (rows : List Person) : Nat :=
  rows.length

end PeopleDAO

/-- The table state after a `create` call: the new table on success, the
old table untouched when the insert fails (a failed INSERT mutates
nothing). -/
def createStep (rows : List Person) (data : NewPerson) (newId : String) (now : Nat) :
    List Person :=
  match PeopleDAO.create rows data newId now with
  | .ok (_, rows') => rows'
  | .error _ => rows

/-- The shared `{ error, message }` body (`ErrorResponseSchema`). -/
structure ErrorResponse where
  error : String
  message : String
deriving Repr, DecidableEq

/-- `ListPeopleQueryDTO`: the validated query of the list route. -/
structure ListPeopleQuery where
  limit : Option Nat := none
  offset : Option Nat := none
  search : Option String := none
deriving Repr, DecidableEq

/-- `ListPeopleQuerySchema` (people.schema.ts lines 30-34) as a validity
predicate: `limit` an integer in [1, 100] when present, `offset` a
nonnegative integer when present, `search` a string of length 1..100
when present. -/
def ListPeopleQuerySchemaValid (q : ListPeopleQuery) : Prop :=
  (∀ l, q.limit = some l → 1 ≤ l ∧ l ≤ 100) ∧
  (∀ o, q.offset = some o → 0 ≤ o) ∧
  (∀ s, q.search = some s → 1 ≤ s.length ∧ s.length ≤ 100)

/-- The body of `PeopleListResponseSchema`. -/
structure PeopleListBody where
  data : List Person
  total : Nat
  limit : Nat
  offset : Nat
deriving Repr, DecidableEq

/-- The GET /people handler (routes/people lines 160-181): destructure
`{ limit = 10, offset = 0, search }` from the validated query and call
`peopleDAO.findAll({ limit, offset, search })`.  The DAO's options type
has no `search` member, so the `search` value read from the query never
reaches a query predicate — it is dropped here exactly as the DAO drops
the excess property. -/
def listPeopleHandler (rows : List Person) (q : ListPeopleQuery) : PeopleListBody :=
  let limit := q.limit.getD 10
  let offset := q.offset.getD 0
  let r := PeopleDAO.findAll rows (some { limit := some limit, offset := some offset })
  { data := r.data
    total := r.total
    limit := limit
    offset := offset }

/-- The POST /people handler's reply (lines 212-238) as a function of the
DAO call's outcome: success returns 201 with the record; the catch-all
`catch` returns 400 with `{ error: 'Bad Request', message:
error.message || 'Failed to create person' }`, whatever the failure. -/
def createPersonReply (outcome : Except DbError Person) : Nat × (Person ⊕ ErrorResponse) :=
  match outcome with
  | .ok p => (201, .inl p)
  | .error e =>
      (400, .inr { error := "Bad Request"
                   message := if e.message = "" then "Failed to create person" else e.message })

/-- The PUT /people/:id handler's reply (lines 241-277) as a function of
the DAO call's outcome: 200 with the record, 404 when the DAO returns
null, and the catch-all 400 on any raised failure. -/
def updatePersonReply (id : String) (outcome : Except DbError (Option Person)) :
    Nat × (Person ⊕ ErrorResponse) :=
  match outcome with
  | .ok (some p) => (200, .inl p)
  | .ok none =>
      (404, .inr { error := "Not Found", message := s!"Person with id {id} not found" })
  | .error e =>
      (400, .inr { error := "Bad Request"
                   message := if e.message = "" then "Failed to update person" else e.message })

/-- The DELETE /people/:id handler (lines 280-306): 204 with null body
when the DAO deleted a row, otherwise 404 with the shared error body. -/
def deletePersonHandler (rows : List Person) (id : String) :
    (Nat × Option ErrorResponse) × List Person :=
  let r := PeopleDAO.delete rows id
  if r.2 then ((204, none), r.1)
  else ((404, some { error := "Not Found", message := s!"Person with id {id} not found" }), r.1)

/-- HTTP verbs of the registered routes. -/
inductive Method where
  | get
  | post
  | put
  | del
deriving Repr, DecidableEq

/-- A route declaration: the (path, verb) key a Fastify plugin registers
and the document publishes. -/
structure RouteDecl where
  path : String
  verb : Method
deriving Repr, DecidableEq

/-- `healthRoutes` declares the single GET /health route. -/
def healthRoutes : List RouteDecl :=
  [{ path := "/health", verb := .get }]

/-- `peopleRoutes` (routes/people/index.ts) declares the five people
routes: list, get-one, create, update, delete. -/
def peopleRoutes : List RouteDecl :=
  [{ path := "/people", verb := .get },
   { path := "/people/:id", verb := .get },
   { path := "/people", verb := .post },
   { path := "/people/:id", verb := .put },
   { path := "/people/:id", verb := .del }]

/-- The Route Handler plugins the backend declares. -/
def declaredRouteHandlers : List (List RouteDecl) :=
  [healthRoutes, peopleRoutes]

/-- `registerRoutes` (routes/index.ts lines 115-117): it registers only
`healthRoutes` — `peopleRoutes` is never registered. -/
def registerRoutes : List RouteDecl :=
  healthRoutes

/-- The (path, verb) keys of the document the OpenAPI generation script
emits: the script registers `registerRoutes` on a fresh server and dumps
the swagger state, so exactly the registered routes appear. -/
def generateOpenAPISpecPaths : List (String × Method) :=
  registerRoutes.map (fun r => (r.path, r.verb))

/-- The seeded example records of the §8 scenario: exactly one of them
has any field containing "Ann". -/
def annPerson : Person :=
  { id := "11111111-1111-1111-1111-111111111111"
    firstName := "Ann"
    lastName := "Lee"
    email := "ann@example.com"
    age := 30
    city := "Oslo"
    country := "Norway"
    createdAt := 0
    updatedAt := 0 }

/-- A second record none of whose fields contain "Ann". -/
def bobPerson : Person :=
  { id := "22222222-2222-2222-2222-222222222222"
    firstName := "Bob"
    lastName := "Stone"
    email := "bob@example.com"
    age := 41
    city := "Lima"
    country := "Peru"
    createdAt := 0
    updatedAt := 0 }

/-- The §8 scenario's create input for Ann. -/
def annInput : NewPerson :=
  { firstName := "Ann"
    lastName := "Lee"
    email := "ann@example.com"
    age := 30
    city := "Oslo"
    country := "Norway" }

/-- C10: `exists(id)` is true exactly when `findById(id)` returns a
record — the two presence checks agree on every table state and id. -/
theorem existsById_agrees_with_findById (rows : List Person) (id : String) :
    PeopleDAO.existsById rows id = true ↔ ∃ p, PeopleDAO.findById rows id = some p := by
  unfold PeopleDAO.existsById PeopleDAO.findById
  cases h : rows.filter (fun p => p.id == id) with
  | nil => simp [h]
  | cons a t => simp [h]

/-- C9: `findAll` on the empty store returns `{data: [], total: 0}` under
the default limit 10 and offset 0; omitted options default to limit 10
and offset 0; and a query accepted by `ListPeopleQuerySchema` has its
limit in [1, 100] and its offset nonnegative. -/
theorem findAll_empty_store_and_defaults :
    PeopleDAO.findAll [] (some { limit := some 10, offset := some 0 }) =
      { data := [], total := 0 } ∧
    (∀ rows, PeopleDAO.findAll rows none =
      PeopleDAO.findAll rows (some { limit := some 10, offset := some 0 })) ∧
    (∀ rows, PeopleDAO.findAll rows (some {}) =
      PeopleDAO.findAll rows (some { limit := some 10, offset := some 0 })) ∧
    (∀ q, ListPeopleQuerySchemaValid q →
      (∀ l, q.limit = some l → 1 ≤ l ∧ l ≤ 100) ∧ (∀ o, q.offset = some o → 0 ≤ o)) := by
  refine ⟨rfl, fun rows => rfl, fun rows => rfl, fun q hq => ⟨hq.1, hq.2.1⟩⟩

/-- C8: `delete` returns true exactly when a row with the id existed (and
removes it); deleting again with the same id returns false; the delete
route answers 204 with an empty body on true and 404 with the shared
error body on false. -/
theorem delete_semantics_and_route (rows : List Person) (id : String) :
    ((PeopleDAO.delete rows id).2 = true ↔ ∃ p ∈ rows, p.id = id) ∧
    (PeopleDAO.delete (PeopleDAO.delete rows id).1 id).2 = false ∧
    ((PeopleDAO.delete rows id).2 = true →
      (deletePersonHandler rows id).1 = (204, none)) ∧
    ((PeopleDAO.delete rows id).2 = false →
      (deletePersonHandler rows id).1 =
        (404, some { error := "Not Found", message := s!"Person with id {id} not found" })) := by
  refine ⟨?_, ?_, ?_, ?_⟩
  · simp [PeopleDAO.delete, List.any_eq_true]
  · simp [PeopleDAO.delete, List.any_eq_true, List.mem_filter]
  · intro h
    simp [deletePersonHandler, h]
  · intro h
    simp [deletePersonHandler, h]

/-- C1: with the two-record store where only `annPerson` has any field
containing "Ann", the list route with `search = "Ann"` returns both
records and `total = 2` — the DAO applies no filter to the page or the
count, so the search parameter the route forwards is ignored (the claim
demands exactly the matching record and `total = 1`). -/
theorem listPeople_search_ignored_eval :
    (listPeopleHandler [annPerson, bobPerson] { search := some "Ann" }).data =
      [annPerson, bobPerson] ∧
    (listPeopleHandler [annPerson, bobPerson] { search := some "Ann" }).total = 2 ∧
    bobPerson.firstName ≠ "Ann" := by
  refine ⟨rfl, rfl, by decide⟩

/-- C2: `peopleRoutes` is a declared Route Handler, yet the published
document's keys are exactly the health route — none of the five people
routes is registered, so none appears in the generated OpenAPI
document. -/
theorem peopleRoutes_not_registered_eval :
    peopleRoutes ∈ declaredRouteHandlers ∧
    generateOpenAPISpecPaths = [("/health", Method.get)] ∧
    ("/people", Method.get) ∉ generateOpenAPISpecPaths ∧
    ("/people/:id", Method.get) ∉ generateOpenAPISpecPaths ∧
    ("/people", Method.post) ∉ generateOpenAPISpecPaths ∧
    ("/people/:id", Method.put) ∉ generateOpenAPISpecPaths ∧
    ("/people/:id", Method.del) ∉ generateOpenAPISpecPaths := by
  refine ⟨by decide, rfl, by decide, by decide, by decide, by decide, by decide⟩

/-- C3 counterexample: an `Unavailable` failure (store unreachable)
raised during a create request is answered with status 400 by the
handler's catch-all, not the 500 the claim prescribes. -/
theorem unavailable_maps_to_400_not_500 :
    (createPersonReply (Except.error (DbError.unavailable "connection refused"))).1 = 400 ∧
    (createPersonReply (Except.error (DbError.unavailable "connection refused"))).1 ≠ 500 := by
  exact ⟨rfl, by decide⟩

/-- C3 amended: every failure raised by the data-access layer during a
create or update request — `Conflict`, `InvalidArgument` and
`Unavailable` alike — is mapped by the handler's catch-all to status 400
with the JSON `{error, message}` body; no failure kind reaches any other
status. -/
theorem create_update_failures_all_map_to_400 (e : DbError) (id : String) :
    (createPersonReply (Except.error e)).1 = 400 ∧
    (∃ b : ErrorResponse, (createPersonReply (Except.error e)).2 = Sum.inr b ∧
      b.error = "Bad Request") ∧
    (updatePersonReply id (Except.error e)).1 = 400 ∧
    (∃ b : ErrorResponse, (updatePersonReply id (Except.error e)).2 = Sum.inr b ∧
      b.error = "Bad Request") := by
  refine ⟨rfl, ⟨_, rfl, rfl⟩, rfl, ⟨_, rfl, rfl⟩⟩

/-- Concatenating the size-`limit` chunks of `l` taken at offsets
`0, limit, 2*limit, …` rebuilds `l`, for any chunk count `n` whose pages
cover all of `l`. -/
theorem range_flatMap_chunks {α : Type} (limit : Nat) :
    ∀ (n : Nat) (l : List α), l.length ≤ n * limit →
      (List.range n).flatMap (fun k => (l.drop (k * limit)).take limit) = l := by
  intro n
  induction n with
  | zero =>
      intro l hl
      simp only [Nat.zero_mul, Nat.le_zero] at hl
      simp [List.length_eq_zero.mp hl]
  | succ n ih =>
      intro l hl
      rw [List.range_succ_eq_map, List.flatMap_cons, List.flatMap_map]
      have hfun : (fun a => (l.drop (Nat.succ a * limit)).take limit) =
          (fun a => (((l.drop limit).drop (a * limit)).take limit)) := by
        funext a
        rw [List.drop_drop]
        rw [Nat.succ_mul, Nat.add_comm]
      rw [hfun]
      have hlen : (l.drop limit).length ≤ n * limit := by
        rw [List.length_drop]
        have e : (n + 1) * limit = n * limit + limit := Nat.succ_mul n limit
        omega
      rw [ih (l.drop limit) hlen]
      simp [List.take_append_drop]

/-- C4 counterexample: two table states holding the same record set (they
are permutations of one another) give different `findAll` pages — the
query has no sort clause, so the page is a function of the store's row
order, which the record set does not determine. -/
theorem findAll_order_not_determined_by_record_set :
    [annPerson, bobPerson].Perm [bobPerson, annPerson] ∧
    (PeopleDAO.findAll [annPerson, bobPerson]
        (some { limit := some 1, offset := some 0 })).data ≠
      (PeopleDAO.findAll [bobPerson, annPerson]
        (some { limit := some 1, offset := some 0 })).data := by
  exact ⟨List.Perm.swap bobPerson annPerson [], by decide⟩

/-- C4 amended: relative to the store's row order (which `findAll` does
not itself impose — the page is deterministic only for a fixed row
sequence), iterating `offset = 0, limit, 2*limit, …` until a page
shorter than `limit` appears visits exactly the table's rows, each once:
the pages before the stopping page are full, the stopping page is short,
their concatenation is the row list itself, and the number of visited
records equals the reported `total`. -/
theorem findAll_pagination_coverage (rows : List Person) (limit : Nat) (h : 1 ≤ limit) :
    (List.range (rows.length / limit + 1)).flatMap
        (fun k => (PeopleDAO.findAll rows
          (some { limit := some limit, offset := some (k * limit) })).data) = rows ∧
    (∀ k, k + 1 < rows.length / limit + 1 →
      (PeopleDAO.findAll rows
        (some { limit := some limit, offset := some (k * limit) })).data.length = limit) ∧
    (PeopleDAO.findAll rows
        (some { limit := some limit, offset := some (rows.length / limit * limit) })).data.length
      < limit ∧
    ((List.range (rows.length / limit + 1)).flatMap
        (fun k => (PeopleDAO.findAll rows
          (some { limit := some limit, offset := some (k * limit) })).data)).length
      = (PeopleDAO.findAll rows none).total := by
  have hdata : ∀ k, (PeopleDAO.findAll rows
      (some { limit := some limit, offset := some (k * limit) })).data
      = (rows.drop (k * limit)).take limit := fun k => rfl
  have hmod := Nat.div_add_mod rows.length limit
  have hlt := Nat.mod_lt rows.length (show 0 < limit by omega)
  have e1 : (rows.length / limit + 1) * limit = rows.length / limit * limit + limit :=
    Nat.succ_mul _ _
  have e2 : limit * (rows.length / limit) = rows.length / limit * limit :=
    Nat.mul_comm _ _
  have hconcat : (List.range (rows.length / limit + 1)).flatMap
      (fun k => (PeopleDAO.findAll rows
        (some { limit := some limit, offset := some (k * limit) })).data) = rows := by
    simp only [hdata]
    exact range_flatMap_chunks limit (rows.length / limit + 1) rows (by omega)
  refine ⟨hconcat, ?_, ?_, ?_⟩
  · intro k hk
    rw [hdata, List.length_take, List.length_drop]
    have h1 : (k + 1) * limit ≤ rows.length / limit * limit :=
      Nat.mul_le_mul_right limit (by omega)
    have e3 : (k + 1) * limit = k * limit + limit := Nat.succ_mul _ _
    have h2 : rows.length / limit * limit ≤ rows.length := Nat.div_mul_le_self _ _
    exact min_eq_left (by omega)
  · rw [hdata, List.length_take, List.length_drop]
    rw [min_eq_right (by omega)]
    omega
  · rw [hconcat]
    rfl

/-- C4 witness: the coverage theorem at the concrete two-row store with
`limit = 1`. -/
theorem findAll_pagination_coverage_witness :
    1 ≤ 1 ∧
    ((List.range ([annPerson, bobPerson].length / 1 + 1)).flatMap
        (fun k => (PeopleDAO.findAll [annPerson, bobPerson]
          (some { limit := some 1, offset := some (k * 1) })).data) = [annPerson, bobPerson] ∧
    (∀ k, k + 1 < [annPerson, bobPerson].length / 1 + 1 →
      (PeopleDAO.findAll [annPerson, bobPerson]
        (some { limit := some 1, offset := some (k * 1) })).data.length = 1) ∧
    (PeopleDAO.findAll [annPerson, bobPerson]
        (some { limit := some 1,
                offset := some ([annPerson, bobPerson].length / 1 * 1) })).data.length < 1 ∧
    ((List.range ([annPerson, bobPerson].length / 1 + 1)).flatMap
        (fun k => (PeopleDAO.findAll [annPerson, bobPerson]
          (some { limit := some 1, offset := some (k * 1) })).data)).length
      = (PeopleDAO.findAll [annPerson, bobPerson] none).total) :=
  ⟨by decide, findAll_pagination_coverage [annPerson, bobPerson] 1 (by decide)⟩

/-- C5: a successful `update` rewrites exactly the fields present in the
input — absent fields keep their pre-update values, identifier and
creation timestamp never change — and sets the update timestamp to the
operation's time unconditionally, so it advances whenever the clock
does, even for an input with zero present fields, which is legal and
changes only the update timestamp. -/
theorem update_frame_and_timestamp (rows : List Person) (id : String) (data : UpdatePerson)
    (now : Nat) (p : Person)
    (hp : rows.find? (fun q => q.id == id) = some p)
    (hc : PeopleDAO.updateConflicts rows id data = false) :
    ∃ r rows', PeopleDAO.update rows id data now = Except.ok (some r, rows') ∧
      r.updatedAt = now ∧ r.id = p.id ∧ r.createdAt = p.createdAt ∧
      (data.firstName = none → r.firstName = p.firstName) ∧
      (data.lastName = none → r.lastName = p.lastName) ∧
      (data.email = none → r.email = p.email) ∧
      (data.age = none → r.age = p.age) ∧
      (data.city = none → r.city = p.city) ∧
      (data.country = none → r.country = p.country) ∧
      (∀ v, data.firstName = some v → r.firstName = v) ∧
      (∀ v, data.lastName = some v → r.lastName = v) ∧
      (∀ v, data.email = some v → r.email = v) ∧
      (∀ v, data.age = some v → r.age = v) ∧
      (∀ v, data.city = some v → r.city = v) ∧
      (∀ v, data.country = some v → r.country = v) ∧
      (p.updatedAt ≤ now → p.updatedAt ≤ r.updatedAt) ∧
      (data = {} → r = { p with updatedAt := now }) := by
  refine ⟨PeopleDAO.applySet p data now,
    rows.map (fun q => if q.id == id then PeopleDAO.applySet q data now else q),
    ?_, rfl, rfl, rfl, ?_, ?_, ?_, ?_, ?_, ?_, ?_, ?_, ?_, ?_, ?_, ?_, ?_, ?_⟩
  · simp [PeopleDAO.update, hc, hp]
  · intro h; simp [PeopleDAO.applySet, h]
  · intro h; simp [PeopleDAO.applySet, h]
  · intro h; simp [PeopleDAO.applySet, h]
  · intro h; simp [PeopleDAO.applySet, h]
  · intro h; simp [PeopleDAO.applySet, h]
  · intro h; simp [PeopleDAO.applySet, h]
  · intro v h; simp [PeopleDAO.applySet, h]
  · intro v h; simp [PeopleDAO.applySet, h]
  · intro v h; simp [PeopleDAO.applySet, h]
  · intro v h; simp [PeopleDAO.applySet, h]
  · intro v h; simp [PeopleDAO.applySet, h]
  · intro v h; simp [PeopleDAO.applySet, h]
  · intro h; exact h
  · intro h; subst h; rfl

/-- C5 witness: the empty update on the one-row store at time 5. -/
theorem update_frame_and_timestamp_witness :
    ([annPerson].find?
      (fun q => q.id == "11111111-1111-1111-1111-111111111111") = some annPerson) ∧
    (PeopleDAO.updateConflicts [annPerson]
      "11111111-1111-1111-1111-111111111111" {} = false) ∧
    (∃ r rows', PeopleDAO.update [annPerson]
        "11111111-1111-1111-1111-111111111111" {} 5 = Except.ok (some r, rows') ∧
      r.updatedAt = 5 ∧ r.id = annPerson.id ∧ r.createdAt = annPerson.createdAt ∧
      (({} : UpdatePerson).firstName = none → r.firstName = annPerson.firstName) ∧
      (({} : UpdatePerson).lastName = none → r.lastName = annPerson.lastName) ∧
      (({} : UpdatePerson).email = none → r.email = annPerson.email) ∧
      (({} : UpdatePerson).age = none → r.age = annPerson.age) ∧
      (({} : UpdatePerson).city = none → r.city = annPerson.city) ∧
      (({} : UpdatePerson).country = none → r.country = annPerson.country) ∧
      (∀ v, ({} : UpdatePerson).firstName = some v → r.firstName = v) ∧
      (∀ v, ({} : UpdatePerson).lastName = some v → r.lastName = v) ∧
      (∀ v, ({} : UpdatePerson).email = some v → r.email = v) ∧
      (∀ v, ({} : UpdatePerson).age = some v → r.age = v) ∧
      (∀ v, ({} : UpdatePerson).city = some v → r.city = v) ∧
      (∀ v, ({} : UpdatePerson).country = some v → r.country = v) ∧
      (annPerson.updatedAt ≤ 5 → annPerson.updatedAt ≤ r.updatedAt) ∧
      (({} : UpdatePerson) = {} → r = { annPerson with updatedAt := 5 })) :=
  ⟨by decide, by decide,
    update_frame_and_timestamp [annPerson] "11111111-1111-1111-1111-111111111111"
      {} 5 annPerson (by decide) (by decide)⟩

/-- C6: when the store holds exactly one record with a given email,
creating a second record with that same email fails with `Conflict`, the
failing insert leaves the table unchanged, the store still holds exactly
one record with that email, and the email-uniqueness invariant of the
table is preserved. -/
theorem create_duplicate_email_conflict (rows : List Person) (data : NewPerson)
    (newId : String) (now : Nat)
    (h : rows.countP (fun p => p.email == data.email) = 1) :
    PeopleDAO.create rows data newId now =
      Except.error (DbError.conflict "duplicate key value violates unique constraint") ∧
    createStep rows data newId now = rows ∧
    (createStep rows data newId now).countP (fun p => p.email == data.email) = 1 ∧
    (rows.Pairwise (fun a b => a.email ≠ b.email) →
      (createStep rows data newId now).Pairwise (fun a b => a.email ≠ b.email)) := by
  have hpos : 0 < rows.countP (fun p => p.email == data.email) := by omega
  obtain ⟨p, hpmem, hpemail⟩ := List.countP_pos_iff.mp hpos
  have hany : rows.any (fun p => p.email == data.email || p.id == newId) = true := by
    rw [List.any_eq_true]
    exact ⟨p, hpmem, by simp [hpemail]⟩
  have hfail : PeopleDAO.create rows data newId now =
      Except.error (DbError.conflict "duplicate key value violates unique constraint") := by
    simp [PeopleDAO.create, hany]
  have hstep : createStep rows data newId now = rows := by
    simp [createStep, hfail]
  exact ⟨hfail, hstep, by rw [hstep]; exact h, fun hpw => by rw [hstep]; exact hpw⟩

/-- C6 witness: creating a second record with Ann's email against the
one-row store. -/
theorem create_duplicate_email_conflict_witness :
    ([annPerson].countP (fun p => p.email == annInput.email) = 1) ∧
    (PeopleDAO.create [annPerson] annInput "33333333-3333-3333-3333-333333333333" 9 =
      Except.error (DbError.conflict "duplicate key value violates unique constraint") ∧
    createStep [annPerson] annInput "33333333-3333-3333-3333-333333333333" 9 = [annPerson] ∧
    (createStep [annPerson] annInput
      "33333333-3333-3333-3333-333333333333" 9).countP
        (fun p => p.email == annInput.email) = 1 ∧
    ([annPerson].Pairwise (fun a b => a.email ≠ b.email) →
      (createStep [annPerson] annInput
        "33333333-3333-3333-3333-333333333333" 9).Pairwise
          (fun a b => a.email ≠ b.email))) :=
  ⟨by decide,
    create_duplicate_email_conflict [annPerson] annInput
      "33333333-3333-3333-3333-333333333333" 9 (by decide)⟩

/-- C7: a `create` whose generated id and email are fresh succeeds, and
`findById` at the returned record's id yields a record equal in every
field to the one `create` returned, with the identifier and both
timestamps populated with the store-generated values and every input
field echoed. -/
theorem create_then_findById_roundtrip (rows : List Person) (data : NewPerson)
    (newId : String) (now : Nat)
    (hid : ∀ p ∈ rows, p.id ≠ newId)
    (hemail : ∀ p ∈ rows, p.email ≠ data.email) :
    ∃ r rows', PeopleDAO.create rows data newId now = Except.ok (r, rows') ∧
      PeopleDAO.findById rows' r.id = some r ∧
      r.id = newId ∧ r.createdAt = now ∧ r.updatedAt = now ∧
      r.firstName = data.firstName ∧ r.lastName = data.lastName ∧
      r.email = data.email ∧ r.age = data.age ∧
      r.city = data.city ∧ r.country = data.country := by
  have hany : rows.any (fun p => p.email == data.email || p.id == newId) = false := by
    rw [List.any_eq_false]
    intro p hpmem
    simp [hemail p hpmem, hid p hpmem]
  refine ⟨{ id := newId, firstName := data.firstName, lastName := data.lastName,
            email := data.email, age := data.age, city := data.city,
            country := data.country, createdAt := now, updatedAt := now },
    rows ++ [{ id := newId, firstName := data.firstName, lastName := data.lastName,
               email := data.email, age := data.age, city := data.city,
               country := data.country, createdAt := now, updatedAt := now }],
    ?_, ?_, rfl, rfl, rfl, rfl, rfl, rfl, rfl, rfl, rfl⟩
  · simp [PeopleDAO.create, hany]
  · have hnil : rows.filter (fun p => p.id == newId) = [] := by
      rw [List.filter_eq_nil_iff]
      intro p hpmem
      simp [hid p hpmem]
    simp [PeopleDAO.findById, List.filter_append, hnil]

/-- C7 witness: creating Ann in the empty store with a concrete fresh id
at time 7. -/
theorem create_then_findById_roundtrip_witness :
    (∀ p ∈ ([] : List Person), p.id ≠ "44444444-4444-4444-4444-444444444444") ∧
    (∀ p ∈ ([] : List Person), p.email ≠ annInput.email) ∧
    (∃ r rows', PeopleDAO.create [] annInput
        "44444444-4444-4444-4444-444444444444" 7 = Except.ok (r, rows') ∧
      PeopleDAO.findById rows' r.id = some r ∧
      r.id = "44444444-4444-4444-4444-444444444444" ∧ r.createdAt = 7 ∧ r.updatedAt = 7 ∧
      r.firstName = annInput.firstName ∧ r.lastName = annInput.lastName ∧
      r.email = annInput.email ∧ r.age = annInput.age ∧
      r.city = annInput.city ∧ r.country = annInput.country) :=
  ⟨by simp, by simp,
    create_then_findById_roundtrip [] annInput
      "44444444-4444-4444-4444-444444444444" 7 (by simp) (by simp)⟩
